import Mathlib

/-!
Verification development for the Cassandra-family workflow-execution
persistence layer of a workflow orchestration service.

The development shallowly embeds the layer's data model and operations:
row-type constants and sentinel UUIDs, the request objects, the
condition-failure taxonomy, the CAS-failure diagnostic trees of the
create and update batch executors, the row encoders for the four task
queues, the composite batch writers with their write-mode preconditions,
the current-execution-pointer writer (with its emitted CQL statements
rendered as strings exactly as the repository's fake batch renders them),
and the slice-reflection helper.

Rows, requests and driver results are modelled as Lean structures; Go
`map[string]interface{}` columns read back from a losing CAS row become
structures of `Option` fields (a missing column is `none`); Go `error`
results become `Option`/sum values; a Go panic becomes `Option.none`.
The trailing ", columns: (…)" dump that the Go code appends to failure
messages is not modelled: it enumerates a Go map in nondeterministic
iteration order and the repository's own tests strip it before
comparison.
-/

namespace Cadence

set_option maxRecDepth 20000

/-! ## Row-type constants and sentinel identifiers -/

/-- Row type discriminator for shard rows. -/
def rowTypeShard : Int := 0

/-- Row type discriminator for execution rows (and the current-execution pointer row). -/
def rowTypeExecution : Int := 1

/-- Row type discriminator for transfer-task rows. -/
def rowTypeTransferTask : Int := 2

/-- Row type discriminator for timer-task rows. -/
def rowTypeTimerTask : Int := 3

/-- Row type discriminator for replication-task rows. -/
def rowTypeReplicationTask : Int := 4

/-- Row type discriminator for cross-cluster-task rows. -/
def rowTypeCrossClusterTask : Int := 6

/-- Run-ID sentinel of the current-execution pointer row. -/
def permanentRunID : String := "30000000-0000-f000-f000-000000000001"

/-- Fixed `visibility_ts` sentinel (year-2000 epoch in ms) used for non-timer rows. -/
def defaultVisibilityTimestamp : Int := 946684800000

/-- Fixed `task_id` of the execution row and the current-execution pointer row. -/
def rowTypeExecutionTaskID : Int := -10

/-- Version value used when a read-back row carries no `workflow_last_write_version`. -/
def emptyVersion : Int := -24

/-- Sentinel `domain_id` key slot for transfer-task rows. -/
def rowTypeTransferDomainID : String := "10000000-3000-f000-f000-000000000000"

/-- Sentinel `workflow_id` key slot for transfer-task rows. -/
def rowTypeTransferWorkflowID : String := "20000000-3000-f000-f000-000000000000"

/-- Sentinel `run_id` key slot for transfer-task rows. -/
def rowTypeTransferRunID : String := "30000000-3000-f000-f000-000000000000"

/-- Sentinel `domain_id` key slot for timer-task rows. -/
def rowTypeTimerDomainID : String := "10000000-4000-f000-f000-000000000000"

/-- Sentinel `workflow_id` key slot for timer-task rows. -/
def rowTypeTimerWorkflowID : String := "20000000-4000-f000-f000-000000000000"

/-- Sentinel `run_id` key slot for timer-task rows. -/
def rowTypeTimerRunID : String := "30000000-4000-f000-f000-000000000000"

/-- Sentinel `domain_id` key slot for replication-task rows. -/
def rowTypeReplicationDomainID : String := "10000000-5000-f000-f000-000000000000"

/-- Sentinel `workflow_id` key slot for replication-task rows. -/
def rowTypeReplicationWorkflowID : String := "20000000-5000-f000-f000-000000000000"

/-- Sentinel `run_id` key slot for replication-task rows. -/
def rowTypeReplicationRunID : String := "30000000-5000-f000-f000-000000000000"

/-- Sentinel `domain_id` key slot for cross-cluster-task rows. -/
def rowTypeCrossClusterDomainID : String := "10000000-7000-f000-f000-000000000000"

/-- Sentinel `run_id` key slot for cross-cluster-task rows. -/
def rowTypeCrossClusterRunID : String := "30000000-7000-f000-f000-000000000000"

/-- The `workflow_id` sentinel the spec's formula would assign to cross-cluster
rows; written from the spec's sentinel scheme for the refutation of the
all-three-slots claim, not from any constant of the code. -/
def specCrossClusterWorkflowIDSentinel : String := "20000000-7000-f000-f000-000000000000"

/-! ## Write-mode enumerations (small integer enums as in the code) -/

/-- Current-workflow write mode: emit nothing. -/
def currentWorkflowWriteModeNoop : Int := 0

/-- Current-workflow write mode: conditional insert. -/
def currentWorkflowWriteModeInsert : Int := 1

/-- Current-workflow write mode: conditional update. -/
def currentWorkflowWriteModeUpdate : Int := 2

/-- Event-buffer write mode: leave the buffered-events row alone. -/
def eventBufferWriteModeNone : Int := 0

/-- Event-buffer write mode: append a blob to the buffered-events row. -/
def eventBufferWriteModeAppend : Int := 1

/-- Event-buffer write mode: delete the buffered-events row. -/
def eventBufferWriteModeClear : Int := 2

/-- Maps write mode: merge-create the sub-maps of a fresh execution row. -/
def workflowExecutionMapsWriteModeCreate : Int := 0

/-- Maps write mode: per-entry upserts and deletes on the sub-maps. -/
def workflowExecutionMapsWriteModeUpdate : Int := 1

/-- Maps write mode: whole-map overwrite of every sub-map. -/
def workflowExecutionMapsWriteModeReset : Int := 2

/-! ## Read-back row of a failed CAS -/

/-- Subset of the `execution` user-type column that the failure diagnosis reads
from the losing row. A field absent from the stored map is `none` / the zero
value, as in the code's permissive parse. -/
structure ExecutionColumn where
  workflowID : String := ""
  runID : Option String := none
  state : Int := 0
  createRequestID : String := ""
  deriving Repr, DecidableEq

/-- Columns of the single losing row handed back by the batch CAS. Missing
columns are `none`. -/
structure PrevRow where
  rowType : Option Int := none
  runID : Option String := none
  rangeID : Option Int := none
  workflowLastWriteVersion : Option Int := none
  currentRunID : Option String := none
  nextEventID : Option Int := none
  execution : Option ExecutionColumn := none
  deriving Repr, DecidableEq

/-! ## Request objects -/

/-- Shard-lease condition of a batch. -/
structure ShardCondition where
  shardID : Int := 0
  rangeID : Int := 0
  deriving Repr, DecidableEq

/-- Expected state of the current-execution pointer row for an `Update` write. -/
structure CurrentWorkflowWriteCondition where
  currentRunID : Option String := none
  lastWriteVersion : Option Int := none
  state : Option Int := none
  deriving Repr, DecidableEq

/-- Value columns the current-execution pointer row is written with. -/
structure CurrentWorkflowRow where
  runID : String := ""
  createRequestID : String := ""
  state : Int := 0
  closeStatus : Int := 0
  lastWriteVersion : Int := 0
  deriving Repr, DecidableEq

/-- Request to the current-execution-pointer writer. -/
structure CurrentWorkflowWriteRequest where
  writeMode : Int := currentWorkflowWriteModeNoop
  row : CurrentWorkflowRow := {}
  condition : Option CurrentWorkflowWriteCondition := none
  deriving Repr, DecidableEq

/-- Core identifying fields of the mutable-state record carried by an
execution request; only the fields the claims touch are modelled. -/
structure InternalWorkflowExecutionInfo where
  domainID : String := ""
  workflowID : String := ""
  runID : String := ""
  createRequestID : String := ""
  state : Int := 0
  deriving Repr, DecidableEq

/-! ## Condition-failure taxonomy -/

/-- Payload of the already-exists variant. -/
structure WorkflowExecutionAlreadyExists where
  otherInfo : String := ""
  createRequestID : String := ""
  runID : String := ""
  state : Int := 0
  lastWriteVersion : Int := 0
  deriving Repr, DecidableEq

/-- Condition-failure outcome with (by construction of the diagnosis) exactly
one variant populated. -/
structure WorkflowOperationConditionFailure where
  unknownConditionFailureDetails : Option String := none
  shardRangeIDNotMatch : Option Int := none
  workflowExecutionAlreadyExists : Option WorkflowExecutionAlreadyExists := none
  currentWorkflowConditionFailInfo : Option String := none
  deriving Repr, DecidableEq

/-! ## CAS failure diagnosis

Modelled from the spec: the conditional-transaction executor's diagnostic
tree (spec section 4.5) for `executeCreateWorkflowBatchTransaction` and
`executeUpdateWorkflowBatchTransaction`, whose implementation file is not
part of the sources; branch conditions and message wording follow the
spec's tree and the message texts pinned by the repository's unit tests
(up to the unmodelled ", columns: (…)" suffix). -/

/-- Message of the catch-all failure of the create executor. -/
def unknownCreateFailure (rangeID : Int) : WorkflowOperationConditionFailure :=
  { unknownConditionFailureDetails :=
      some ("Failed to operate on workflow execution.  Request RangeID: " ++ toString rangeID) }

/-- Current-run-pointer checks of the create path when the losing pointer row
carries no (complete) `execution` column. -/
def classifyCreateCurrentRunMismatch (prev : PrevRow)
    (currentWFReq : CurrentWorkflowWriteRequest)
    (execution : InternalWorkflowExecutionInfo) : WorkflowOperationConditionFailure :=
  let actualCurrentRunID := prev.currentRunID.getD ""
  match currentWFReq.condition.bind (fun c => c.currentRunID) with
  | some expected =>
    if expected ≠ actualCurrentRunID then
      { currentWorkflowConditionFailInfo :=
          some ("Workflow execution creation condition failed by mismatch runID. WorkflowId: " ++
            execution.workflowID ++ ", Expected Current RunID: " ++ expected ++
            ", Actual Current RunID: " ++ actualCurrentRunID) }
    else
      { currentWorkflowConditionFailInfo :=
          some ("Workflow execution creation condition failed. WorkflowId: " ++
            execution.workflowID ++ ", CurrentRunID: " ++ actualCurrentRunID) }
  | none =>
    { currentWorkflowConditionFailInfo :=
        some ("Workflow execution creation condition failed. WorkflowId: " ++
          execution.workflowID ++ ", CurrentRunID: " ++ actualCurrentRunID) }

/-- Diagnosis of a non-applied CAS on the create path. The current-execution
pointer row (run id `permanentRunID`) is examined before the target execution
row, as in the spec's tree. -/
def classifyCreateFailure (prev : PrevRow) (currentWFReq : CurrentWorkflowWriteRequest)
    (execution : InternalWorkflowExecutionInfo) (shardCond : ShardCondition) :
    WorkflowOperationConditionFailure :=
  match prev.rowType with
  | none => unknownCreateFailure shardCond.rangeID
  | some t =>
    if t = rowTypeShard then
      match prev.rangeID with
      | some actual =>
        if actual ≠ shardCond.rangeID then { shardRangeIDNotMatch := some actual }
        else unknownCreateFailure shardCond.rangeID
      | none => unknownCreateFailure shardCond.rangeID
    else if t = rowTypeExecution ∧ prev.runID = some permanentRunID then
      match prev.execution with
      | some execCol =>
        match execCol.runID with
        | some existingRunID =>
          let msg := "Workflow execution already running. WorkflowId: " ++ execCol.workflowID ++
            ", RunId: " ++ existingRunID ++ ", rangeID: " ++ toString shardCond.rangeID
          if currentWFReq.writeMode = currentWorkflowWriteModeInsert then
            { workflowExecutionAlreadyExists := some
                { otherInfo := msg
                  createRequestID := execCol.createRequestID
                  runID := existingRunID
                  state := execCol.state
                  lastWriteVersion := prev.workflowLastWriteVersion.getD emptyVersion } }
          else
            { currentWorkflowConditionFailInfo := some msg }
        | none => classifyCreateCurrentRunMismatch prev currentWFReq execution
      | none => classifyCreateCurrentRunMismatch prev currentWFReq execution
    else if t = rowTypeExecution ∧ prev.runID = some execution.runID then
      { workflowExecutionAlreadyExists := some
          { otherInfo := "Workflow execution already running. WorkflowId: " ++ execution.workflowID ++
              ", RunId: " ++ execution.runID ++ ", rangeID: " ++ toString shardCond.rangeID
            createRequestID := execution.createRequestID
            runID := execution.runID
            state := execution.state
            lastWriteVersion := prev.workflowLastWriteVersion.getD emptyVersion } }
    else unknownCreateFailure shardCond.rangeID

/-- Message of the catch-all failure of the update executor. -/
def unknownUpdateFailure (shardCond : ShardCondition) (prevNextEventIDCond : Int)
    (currentWFReq : CurrentWorkflowWriteRequest) : WorkflowOperationConditionFailure :=
  { unknownConditionFailureDetails :=
      some ("Failed to update mutable state. ShardID: " ++ toString shardCond.shardID ++
        ", RangeID: " ++ toString shardCond.rangeID ++
        ", previousNextEventIDCondition: " ++ toString prevNextEventIDCond ++
        ", requestConditionalRunID: " ++
        ((currentWFReq.condition.bind (fun c => c.currentRunID)).getD "")) }

/-- Diagnosis of a non-applied CAS on the update path. The target execution
row (the request's current run id) is examined before the current-execution
pointer row; a row that matches a branch but satisfies its condition falls
through to the catch-all. -/
def classifyUpdateFailure (prev : PrevRow) (currentWFReq : CurrentWorkflowWriteRequest)
    (prevNextEventIDCond : Int) (shardCond : ShardCondition) :
    WorkflowOperationConditionFailure :=
  match prev.rowType with
  | none => unknownUpdateFailure shardCond prevNextEventIDCond currentWFReq
  | some t =>
    if t = rowTypeShard then
      match prev.rangeID with
      | some actual =>
        if actual ≠ shardCond.rangeID then { shardRangeIDNotMatch := some actual }
        else unknownUpdateFailure shardCond prevNextEventIDCond currentWFReq
      | none => unknownUpdateFailure shardCond prevNextEventIDCond currentWFReq
    else if t = rowTypeExecution ∧ prev.runID = some currentWFReq.row.runID then
      match prev.nextEventID with
      | some actualNextEventID =>
        if actualNextEventID ≠ prevNextEventIDCond then
          { unknownConditionFailureDetails :=
              some ("Failed to update mutable state. previousNextEventIDCondition: " ++
                toString prevNextEventIDCond ++ ", actualNextEventID: " ++
                toString actualNextEventID ++ ", Request Current RunID: " ++
                currentWFReq.row.runID) }
        else unknownUpdateFailure shardCond prevNextEventIDCond currentWFReq
      | none => unknownUpdateFailure shardCond prevNextEventIDCond currentWFReq
    else if t = rowTypeExecution ∧ prev.runID = some permanentRunID then
      let actualCurrentRunID := prev.currentRunID.getD ""
      match currentWFReq.condition.bind (fun c => c.currentRunID) with
      | some expected =>
        if expected ≠ actualCurrentRunID then
          { currentWorkflowConditionFailInfo :=
              some ("Failed to update mutable state. requestConditionalRunID: " ++ expected ++
                ", Actual Value: " ++ actualCurrentRunID) }
        else unknownUpdateFailure shardCond prevNextEventIDCond currentWFReq
      | none => unknownUpdateFailure shardCond prevNextEventIDCond currentWFReq
    else unknownUpdateFailure shardCond prevNextEventIDCond currentWFReq

/-! ## Conditional-transaction executors over the fake driver

The driver abstraction is modelled on the repository's fake session and
fake iterator: the CAS call returns an applied flag, the losing row's
columns, an optional driver error, and an iterator whose `closed` flag the
executor must set. Go's `defer iter.Close()`, registered directly after
the CAS call and before the error check, is embedded as an unconditional
close applied to the iterator at every function exit; each executor
therefore returns its result paired with the iterator's final state. -/

/-- Iterator handed back by the batch CAS; closing sets the flag. -/
structure FakeIter where
  closed : Bool := false
  deriving Repr, DecidableEq

/-- Close the iterator (the deferred `iter.Close()`). -/
def closeIter (iter : FakeIter) : FakeIter :=
  { iter with closed := true }

/-- Fake session: plain fields control the CAS outcome. -/
structure FakeSession where
  iter : FakeIter := {}
  mapExecuteBatchCASApplied : Bool := false
  mapExecuteBatchCASPrev : PrevRow := {}
  mapExecuteBatchCASErr : Option String := none
  deriving Repr, DecidableEq

/-- Result of a batch executor: success, a verbatim driver error, or a
classified condition failure. -/
inductive TxResult where
  | ok
  | driverErr (msg : String)
  | condFailure (f : WorkflowOperationConditionFailure)
  deriving Repr, DecidableEq

/-- Modelled from the spec: `executeCreateWorkflowBatchTransaction` (spec
section 4.5), whose implementation file is not part of the sources. Submits
the batch with CAS; propagates a driver error verbatim; on non-application
classifies the losing row; closes the iterator on every exit path. The
batch itself is not consulted by the diagnosis. -/
def executeCreateWorkflowBatchTransaction (session : FakeSession)
    (currentWFReq : CurrentWorkflowWriteRequest)
    (execution : InternalWorkflowExecutionInfo)
    (shardCond : ShardCondition) : TxResult × FakeIter :=
  let result : TxResult :=
    match session.mapExecuteBatchCASErr with
    | some e => .driverErr e
    | none =>
      if session.mapExecuteBatchCASApplied then .ok
      else .condFailure
        (classifyCreateFailure session.mapExecuteBatchCASPrev currentWFReq execution shardCond)
  (result, closeIter session.iter)

/-- Modelled from the spec: `executeUpdateWorkflowBatchTransaction` (spec
section 4.5), whose implementation file is not part of the sources. Same
shape as the create executor, with the `prevNextEventIDCond` optimistic
concurrency token. -/
def executeUpdateWorkflowBatchTransaction (session : FakeSession)
    (currentWFReq : CurrentWorkflowWriteRequest)
    (prevNextEventIDCond : Int)
    (shardCond : ShardCondition) : TxResult × FakeIter :=
  let result : TxResult :=
    match session.mapExecuteBatchCASErr with
    | some e => .driverErr e
    | none =>
      if session.mapExecuteBatchCASApplied then .ok
      else .condFailure
        (classifyUpdateFailure session.mapExecuteBatchCASPrev currentWFReq prevNextEventIDCond shardCond)
  (result, closeIter session.iter)

/-! ## Task-row encoders

One emitted row per task. Every task row shares the execution's partition
(`shard_id`) and is keyed under per-type key slots; the payload carries the
statement's non-key arguments as the repository's tests render them. -/

/-- Transfer-task request fields (also embedded in cross-cluster tasks).
Times are modelled as epoch nanoseconds. -/
structure TransferTask where
  runID : String := ""
  taskID : Int := 0
  taskType : Int := 0
  version : Int := 0
  visibilityTimestamp : Int := 0
  targetDomainID : String := ""
  targetWorkflowID : String := ""
  targetRunID : String := ""
  targetChildWorkflowOnly : Bool := false
  taskList : String := ""
  scheduleID : Int := 0
  deriving Repr, DecidableEq

/-- Timer-task request fields; `visibilityTimestamp` is the scheduled time in
epoch nanoseconds. -/
structure TimerTask where
  runID : String := ""
  taskID : Int := 0
  taskType : Int := 0
  timeoutType : Int := 0
  eventID : Int := 0
  scheduleAttempt : Int := 0
  version : Int := 0
  visibilityTimestamp : Int := 0
  deriving Repr, DecidableEq

/-- Replication-task request fields. -/
structure ReplicationTask where
  runID : String := ""
  taskID : Int := 0
  taskType : Int := 0
  firstEventID : Int := 0
  nextEventID : Int := 0
  version : Int := 0
  scheduledID : Int := 0
  newRunBranchToken : List Nat := []
  creationTime : Int := 0
  deriving Repr, DecidableEq

/-- Cross-cluster-task request: a transfer task plus the target cluster name. -/
structure CrossClusterTask where
  transferTask : TransferTask := {}
  targetCluster : String := ""
  deriving Repr, DecidableEq

/-- Payload column of a task row (the user-type value the statement writes). -/
inductive TaskPayload where
  | transfer (domainID workflowID : String) (t : TransferTask)
  | timer (domainID workflowID : String) (t : TimerTask)
  | replication (domainID workflowID : String) (t : ReplicationTask)
  | crossCluster (domainID workflowID : String) (t : TransferTask)
  deriving Repr, DecidableEq

/-- One `INSERT INTO executions` task-row statement: the six-tuple key columns
plus the payload column. -/
structure TaskRow where
  shardID : Int
  rowType : Int
  domainIDSlot : String
  workflowIDSlot : String
  runIDSlot : String
  payload : TaskPayload
  visibilityTs : Int
  taskID : Int
  deriving Repr, DecidableEq

/-- Milliseconds since epoch of an epoch-nanosecond instant (the conversion
the timer encoder applies to the scheduled time). -/
def epochMillis (unixNano : Int) : Int := unixNano / 1000000

/-- Modelled from the spec: `createTransferTasks` (spec sections 3 and 4.2),
whose implementation file is not part of the sources; key slots and the
fixed `visibility_ts` sentinel follow the statements pinned by the
repository's `TestTransferTasks`. -/
def createTransferTasks (batch : List TaskRow) (shardID : Int)
    (domainID workflowID : String) (tasks : List TransferTask) : List TaskRow :=
  batch ++ tasks.map (fun t =>
    { shardID := shardID
      rowType := rowTypeTransferTask
      domainIDSlot := rowTypeTransferDomainID
      workflowIDSlot := rowTypeTransferWorkflowID
      runIDSlot := rowTypeTransferRunID
      payload := .transfer domainID workflowID t
      visibilityTs := defaultVisibilityTimestamp
      taskID := t.taskID })

/-- Modelled from the spec: `createTimerTasks` (spec sections 3 and 4.2),
whose implementation file is not part of the sources; the row's
`visibility_ts` is the scheduled time in epoch milliseconds, as pinned by
the repository's `TestCreateTimerTasks`. -/
def createTimerTasks (batch : List TaskRow) (shardID : Int)
    (domainID workflowID : String) (tasks : List TimerTask) : List TaskRow :=
  batch ++ tasks.map (fun t =>
    { shardID := shardID
      rowType := rowTypeTimerTask
      domainIDSlot := rowTypeTimerDomainID
      workflowIDSlot := rowTypeTimerWorkflowID
      runIDSlot := rowTypeTimerRunID
      payload := .timer domainID workflowID t
      visibilityTs := epochMillis t.visibilityTimestamp
      taskID := t.taskID })

/-- Modelled from the spec: `createReplicationTasks` (spec sections 3 and
4.2), whose implementation file is not part of the sources; key slots and
the fixed `visibility_ts` sentinel follow the statements pinned by the
repository's `TestReplicationTasks`. -/
def createReplicationTasks (batch : List TaskRow) (shardID : Int)
    (domainID workflowID : String) (tasks : List ReplicationTask) : List TaskRow :=
  batch ++ tasks.map (fun t =>
    { shardID := shardID
      rowType := rowTypeReplicationTask
      domainIDSlot := rowTypeReplicationDomainID
      workflowIDSlot := rowTypeReplicationWorkflowID
      runIDSlot := rowTypeReplicationRunID
      payload := .replication domainID workflowID t
      visibilityTs := defaultVisibilityTimestamp
      taskID := t.taskID })

/-- Modelled from the spec: `createCrossClusterTasks` (spec sections 3 and
4.2), whose implementation file is not part of the sources. The `domain_id`
and `run_id` key slots carry the cross-cluster sentinels; the `workflow_id`
key slot carries the task's target cluster name, as pinned by the
repository's `TestCrossClusterTasks` (whose expected statement shows an
empty `workflow_id` slot for an unset target cluster, not a sentinel). -/
def createCrossClusterTasks (batch : List TaskRow) (shardID : Int)
    (domainID workflowID : String) (tasks : List CrossClusterTask) : List TaskRow :=
  batch ++ tasks.map (fun t =>
    { shardID := shardID
      rowType := rowTypeCrossClusterTask
      domainIDSlot := rowTypeCrossClusterDomainID
      workflowIDSlot := t.targetCluster
      runIDSlot := rowTypeCrossClusterRunID
      payload := .crossCluster domainID workflowID t.transferTask
      visibilityTs := defaultVisibilityTimestamp
      taskID := t.transferTask.taskID })

/-! ## Sub-map records and the execution-batch statement alphabet

The composite writers assemble batches of statements against the execution
row and its six sub-maps. A statement is modelled per encoder template,
carrying its key arguments; the payload serialization of the sub-map
records is outside every claim and is carried as the record itself. -/

/-- Activity-info record (representative fields). -/
structure ActivityInfo where
  version : Int := 0
  scheduleID : Int := 0
  startedID : Int := 0
  activityID : String := ""
  deriving Repr, DecidableEq

/-- Timer-info record (representative fields). -/
structure TimerInfo where
  version : Int := 0
  timerID : String := ""
  startedID : Int := 0
  taskStatus : Int := 0
  deriving Repr, DecidableEq

/-- Child-execution-info record (representative fields). -/
structure ChildExecutionInfo where
  version : Int := 0
  initiatedID : Int := 0
  startedID : Int := 0
  startedRunID : String := ""
  deriving Repr, DecidableEq

/-- Request-cancel-info record (representative fields). -/
structure RequestCancelInfo where
  version : Int := 0
  initiatedID : Int := 0
  cancelRequestID : String := ""
  deriving Repr, DecidableEq

/-- Signal-info record (representative fields). -/
structure SignalInfo where
  version : Int := 0
  initiatedID : Int := 0
  signalRequestID : String := ""
  signalName : String := ""
  deriving Repr, DecidableEq

/-- Mutable-state write request consumed by the composite writers; sub-maps
are association lists (ordered, as the encoders order their statements). -/
structure WorkflowExecutionRequest where
  info : InternalWorkflowExecutionInfo := {}
  eventBufferWriteMode : Int := eventBufferWriteModeNone
  mapsWriteMode : Int := workflowExecutionMapsWriteModeCreate
  previousNextEventIDCondition : Option Int := none
  activityInfos : List (Int × ActivityInfo) := []
  timerInfos : List (String × TimerInfo) := []
  childWorkflowInfos : List (Int × ChildExecutionInfo) := []
  requestCancelInfos : List (Int × RequestCancelInfo) := []
  signalInfos : List (Int × SignalInfo) := []
  signalRequestedIDs : List String := []
  activityInfoKeysToDelete : List Int := []
  timerInfoKeysToDelete : List String := []
  childWorkflowInfoKeysToDelete : List Int := []
  requestCancelInfoKeysToDelete : List Int := []
  signalInfoKeysToDelete : List Int := []
  signalRequestedIDsToDelete : List String := []
  deriving Repr, DecidableEq

/-- One statement of an execution-partition batch, one constructor per
encoder template. -/
inductive ExecStmt where
  | insertExecution (shardID : Int) (domainID workflowID : String)
      (req : WorkflowExecutionRequest) (visibilityTs taskID : Int)
  | updateExecution (shardID : Int) (domainID workflowID : String)
      (req : WorkflowExecutionRequest) (visibilityTs taskID : Int)
  | deleteBufferedEventsRow (shardID : Int) (domainID workflowID runID : String)
  | appendBufferedEventsRow (shardID : Int) (domainID workflowID runID : String)
  | upsertActivityInfo (shardID : Int) (domainID workflowID runID : String)
      (scheduleID : Int) (info : ActivityInfo)
  | removeActivityInfo (shardID : Int) (domainID workflowID runID : String) (scheduleID : Int)
  | overwriteActivityMap (shardID : Int) (domainID workflowID runID : String)
      (infos : List (Int × ActivityInfo))
  | upsertTimerInfo (shardID : Int) (domainID workflowID runID : String)
      (timerID : String) (info : TimerInfo)
  | removeTimerInfo (shardID : Int) (domainID workflowID runID : String) (timerID : String)
  | overwriteTimerMap (shardID : Int) (domainID workflowID runID : String)
      (infos : List (String × TimerInfo))
  | upsertChildExecutionInfo (shardID : Int) (domainID workflowID runID : String)
      (initiatedID : Int) (info : ChildExecutionInfo)
  | removeChildExecutionInfo (shardID : Int) (domainID workflowID runID : String) (initiatedID : Int)
  | overwriteChildExecutionMap (shardID : Int) (domainID workflowID runID : String)
      (infos : List (Int × ChildExecutionInfo))
  | upsertRequestCancelInfo (shardID : Int) (domainID workflowID runID : String)
      (initiatedID : Int) (info : RequestCancelInfo)
  | removeRequestCancelInfo (shardID : Int) (domainID workflowID runID : String) (initiatedID : Int)
  | overwriteRequestCancelMap (shardID : Int) (domainID workflowID runID : String)
      (infos : List (Int × RequestCancelInfo))
  | upsertSignalInfo (shardID : Int) (domainID workflowID runID : String)
      (initiatedID : Int) (info : SignalInfo)
  | removeSignalInfo (shardID : Int) (domainID workflowID runID : String) (initiatedID : Int)
  | overwriteSignalMap (shardID : Int) (domainID workflowID runID : String)
      (infos : List (Int × SignalInfo))
  | addSignalsRequested (shardID : Int) (domainID workflowID runID : String) (ids : List String)
  | removeSignalsRequested (shardID : Int) (domainID workflowID runID : String) (ids : List String)
  | overwriteSignalsRequested (shardID : Int) (domainID workflowID runID : String) (ids : List String)
  deriving Repr, DecidableEq

/-! ## Row encoders for the execution row, buffered events and sub-maps -/

/-- Modelled from the spec: `createWorkflowExecution` (spec section 4.3),
whose implementation file is not part of the sources. One execution-row
insert at the fixed `visibility_ts` sentinel and execution `task_id`. -/
def createWorkflowExecution (batch : List ExecStmt) (shardID : Int)
    (domainID workflowID : String) (execution : WorkflowExecutionRequest) : List ExecStmt :=
  batch ++ [.insertExecution shardID domainID workflowID execution
    defaultVisibilityTimestamp rowTypeExecutionTaskID]

/-- Modelled from the spec: `updateWorkflowExecution` (spec section 4.3),
whose implementation file is not part of the sources. One execution-row
update at the fixed `visibility_ts` sentinel and execution `task_id`. -/
def updateWorkflowExecution (batch : List ExecStmt) (shardID : Int)
    (domainID workflowID : String) (execution : WorkflowExecutionRequest) : List ExecStmt :=
  batch ++ [.updateExecution shardID domainID workflowID execution
    defaultVisibilityTimestamp rowTypeExecutionTaskID]

/-- Modelled from the spec: `deleteBufferedEvents` (spec section 4.3), whose
implementation file is not part of the sources. One row-delete of the
buffered-events row. -/
def deleteBufferedEvents (batch : List ExecStmt) (shardID : Int)
    (domainID workflowID runID : String) : List ExecStmt :=
  batch ++ [.deleteBufferedEventsRow shardID domainID workflowID runID]

/-- Modelled from the spec: `appendBufferedEvents` (spec section 4.3), whose
implementation file is not part of the sources. One list-append on the
buffered-events row. -/
def appendBufferedEvents (batch : List ExecStmt) (shardID : Int)
    (domainID workflowID runID : String) : List ExecStmt :=
  batch ++ [.appendBufferedEventsRow shardID domainID workflowID runID]

/-- Modelled from the spec: `updateActivityInfos` (spec section 4.3); one
row-update per upserted entry and one row-delete per deleted key, as pinned
by the repository's `TestUpdateActivityInfos`. -/
def updateActivityInfos (batch : List ExecStmt) (shardID : Int)
    (domainID workflowID runID : String)
    (infos : List (Int × ActivityInfo)) (deleteIDs : List Int) : List ExecStmt :=
  batch ++ infos.map (fun kv => .upsertActivityInfo shardID domainID workflowID runID kv.1 kv.2)
    ++ deleteIDs.map (fun k => .removeActivityInfo shardID domainID workflowID runID k)

/-- Modelled from the spec: `resetActivityInfos` (spec section 4.3); one
whole-map overwrite, as pinned by the repository's `TestResetActivityInfos`. -/
def resetActivityInfos (batch : List ExecStmt) (shardID : Int)
    (domainID workflowID runID : String) (infos : List (Int × ActivityInfo)) : List ExecStmt :=
  batch ++ [.overwriteActivityMap shardID domainID workflowID runID infos]

/-- Modelled from the spec: `updateTimerInfos` (spec section 4.3); one
row-update per upserted entry and one row-delete per deleted key. -/
def updateTimerInfos (batch : List ExecStmt) (shardID : Int)
    (domainID workflowID runID : String)
    (infos : List (String × TimerInfo)) (deleteIDs : List String) : List ExecStmt :=
  batch ++ infos.map (fun kv => .upsertTimerInfo shardID domainID workflowID runID kv.1 kv.2)
    ++ deleteIDs.map (fun k => .removeTimerInfo shardID domainID workflowID runID k)

/-- Modelled from the spec: `resetTimerInfos` (spec section 4.3); one
whole-map overwrite. -/
def resetTimerInfos (batch : List ExecStmt) (shardID : Int)
    (domainID workflowID runID : String) (infos : List (String × TimerInfo)) : List ExecStmt :=
  batch ++ [.overwriteTimerMap shardID domainID workflowID runID infos]

/-- Modelled from the spec: `updateChildExecutionInfos` (spec section 4.3);
one row-update per upserted entry and one row-delete per deleted key. -/
def updateChildExecutionInfos (batch : List ExecStmt) (shardID : Int)
    (domainID workflowID runID : String)
    (infos : List (Int × ChildExecutionInfo)) (deleteIDs : List Int) : List ExecStmt :=
  batch ++ infos.map (fun kv => .upsertChildExecutionInfo shardID domainID workflowID runID kv.1 kv.2)
    ++ deleteIDs.map (fun k => .removeChildExecutionInfo shardID domainID workflowID runID k)

/-- Modelled from the spec: `resetChildExecutionInfos` (spec section 4.3);
one whole-map overwrite. -/
def resetChildExecutionInfos (batch : List ExecStmt) (shardID : Int)
    (domainID workflowID runID : String) (infos : List (Int × ChildExecutionInfo)) : List ExecStmt :=
  batch ++ [.overwriteChildExecutionMap shardID domainID workflowID runID infos]

/-- Modelled from the spec: `updateRequestCancelInfos` (spec section 4.3);
one row-update per upserted entry and one row-delete per deleted key. -/
def updateRequestCancelInfos (batch : List ExecStmt) (shardID : Int)
    (domainID workflowID runID : String)
    (infos : List (Int × RequestCancelInfo)) (deleteIDs : List Int) : List ExecStmt :=
  batch ++ infos.map (fun kv => .upsertRequestCancelInfo shardID domainID workflowID runID kv.1 kv.2)
    ++ deleteIDs.map (fun k => .removeRequestCancelInfo shardID domainID workflowID runID k)

/-- Modelled from the spec: `resetRequestCancelInfos` (spec section 4.3);
one whole-map overwrite. -/
def resetRequestCancelInfos (batch : List ExecStmt) (shardID : Int)
    (domainID workflowID runID : String) (infos : List (Int × RequestCancelInfo)) : List ExecStmt :=
  batch ++ [.overwriteRequestCancelMap shardID domainID workflowID runID infos]

/-- Modelled from the spec: `updateSignalInfos` (spec section 4.3); one
row-update per upserted entry and one row-delete per deleted key, as pinned
by the repository's `TestUpdateSignalInfos`. -/
def updateSignalInfos (batch : List ExecStmt) (shardID : Int)
    (domainID workflowID runID : String)
    (infos : List (Int × SignalInfo)) (deleteIDs : List Int) : List ExecStmt :=
  batch ++ infos.map (fun kv => .upsertSignalInfo shardID domainID workflowID runID kv.1 kv.2)
    ++ deleteIDs.map (fun k => .removeSignalInfo shardID domainID workflowID runID k)

/-- Modelled from the spec: `resetSignalInfos` (spec section 4.3); one
whole-map overwrite, as pinned by the repository's `TestResetSignalInfos`. -/
def resetSignalInfos (batch : List ExecStmt) (shardID : Int)
    (domainID workflowID runID : String) (infos : List (Int × SignalInfo)) : List ExecStmt :=
  batch ++ [.overwriteSignalMap shardID domainID workflowID runID infos]

/-- Modelled from the spec: `updateSignalsRequested` (spec sections 4.3 and
8); a set-add statement only when the added id list is non-empty and a
set-subtract statement only when the deleted id list is non-empty, as
pinned by the repository's `TestUpdateSignalsRequested`. -/
def updateSignalsRequested (batch : List ExecStmt) (shardID : Int)
    (domainID workflowID runID : String)
    (signalReqIDs deleteSignalReqIDs : List String) : List ExecStmt :=
  (batch ++
    (if signalReqIDs.isEmpty then []
     else [.addSignalsRequested shardID domainID workflowID runID signalReqIDs])) ++
    (if deleteSignalReqIDs.isEmpty then []
     else [.removeSignalsRequested shardID domainID workflowID runID deleteSignalReqIDs])

/-- Modelled from the spec: `resetSignalsRequested` (spec section 4.3); one
set overwrite, as pinned by the repository's `TestResetSignalsRequested`. -/
def resetSignalsRequested (batch : List ExecStmt) (shardID : Int)
    (domainID workflowID runID : String) (signalReqIDs : List String) : List ExecStmt :=
  batch ++ [.overwriteSignalsRequested shardID domainID workflowID runID signalReqIDs]

/-! ## Composite writers

Each composite checks its write-mode precondition pair before encoding any
row (spec section 4.3: a mismatch fails with a precondition error before
any row is encoded) and then dispatches to the encoders above. Errors are
returned alongside the batch, which a failed precondition leaves untouched. -/

/-- Modelled from the spec: `createWorkflowExecutionWithMergeMaps` (spec
section 4.3), whose implementation file is not part of the sources.
Requires `EventBufferWriteMode = None` and `MapsWriteMode = Create`; emits
the execution-row insert, a merge-create per present sub-map entry and the
signal-requested set add. -/
def createWorkflowExecutionWithMergeMaps (batch : List ExecStmt) (shardID : Int)
    (domainID workflowID : String) (execution : WorkflowExecutionRequest) :
    List ExecStmt × Option String :=
  if execution.eventBufferWriteMode ≠ eventBufferWriteModeNone then
    (batch, some "createWorkflowExecutionWithMergeMaps requires EventBufferWriteMode None")
  else if execution.mapsWriteMode ≠ workflowExecutionMapsWriteModeCreate then
    (batch, some "createWorkflowExecutionWithMergeMaps requires WorkflowExecutionMapsWriteMode Create")
  else
    let runID := execution.info.runID
    let b := createWorkflowExecution batch shardID domainID workflowID execution
    let b := updateActivityInfos b shardID domainID workflowID runID execution.activityInfos []
    let b := updateTimerInfos b shardID domainID workflowID runID execution.timerInfos []
    let b := updateChildExecutionInfos b shardID domainID workflowID runID execution.childWorkflowInfos []
    let b := updateRequestCancelInfos b shardID domainID workflowID runID execution.requestCancelInfos []
    let b := updateSignalInfos b shardID domainID workflowID runID execution.signalInfos []
    let b := updateSignalsRequested b shardID domainID workflowID runID execution.signalRequestedIDs []
    (b, none)

/-- Modelled from the spec: `resetWorkflowExecutionAndMapsAndEventBuffer`
(spec section 4.3), whose implementation file is not part of the sources.
Requires `EventBufferWriteMode = Clear` and `MapsWriteMode = Reset`; emits
the execution-row overwrite, the buffered-events delete and a whole-map
overwrite for each of the six sub-maps. -/
def resetWorkflowExecutionAndMapsAndEventBuffer (batch : List ExecStmt) (shardID : Int)
    (domainID workflowID : String) (execution : WorkflowExecutionRequest) :
    List ExecStmt × Option String :=
  if execution.eventBufferWriteMode ≠ eventBufferWriteModeClear then
    (batch, some "resetWorkflowExecutionAndMapsAndEventBuffer requires EventBufferWriteMode Clear")
  else if execution.mapsWriteMode ≠ workflowExecutionMapsWriteModeReset then
    (batch, some "resetWorkflowExecutionAndMapsAndEventBuffer requires WorkflowExecutionMapsWriteMode Reset")
  else
    let runID := execution.info.runID
    let b := updateWorkflowExecution batch shardID domainID workflowID execution
    let b := deleteBufferedEvents b shardID domainID workflowID runID
    let b := resetActivityInfos b shardID domainID workflowID runID execution.activityInfos
    let b := resetTimerInfos b shardID domainID workflowID runID execution.timerInfos
    let b := resetChildExecutionInfos b shardID domainID workflowID runID execution.childWorkflowInfos
    let b := resetRequestCancelInfos b shardID domainID workflowID runID execution.requestCancelInfos
    let b := resetSignalInfos b shardID domainID workflowID runID execution.signalInfos
    let b := resetSignalsRequested b shardID domainID workflowID runID execution.signalRequestedIDs
    (b, none)

/-- Modelled from the spec:
`updateWorkflowExecutionAndEventBufferWithMergeAndDeleteMaps` (spec section
4.3), whose implementation file is not part of the sources. Requires
`MapsWriteMode = Update` with `EventBufferWriteMode` `Clear` or `Append`;
emits the conditional execution-row update, the buffered-events delete or
append, per-entry sub-map upserts and deletes, and the signal-requested
set-add and set-subtract. -/
def updateWorkflowExecutionAndEventBufferWithMergeAndDeleteMaps (batch : List ExecStmt)
    (shardID : Int) (domainID workflowID : String) (execution : WorkflowExecutionRequest) :
    List ExecStmt × Option String :=
  if execution.mapsWriteMode ≠ workflowExecutionMapsWriteModeUpdate then
    (batch, some "updateWorkflowExecutionAndEventBufferWithMergeAndDeleteMaps requires WorkflowExecutionMapsWriteMode Update")
  else if execution.eventBufferWriteMode ≠ eventBufferWriteModeClear ∧
      execution.eventBufferWriteMode ≠ eventBufferWriteModeAppend then
    (batch, some "updateWorkflowExecutionAndEventBufferWithMergeAndDeleteMaps requires EventBufferWriteMode Clear or Append")
  else
    let runID := execution.info.runID
    let b := updateWorkflowExecution batch shardID domainID workflowID execution
    let b :=
      if execution.eventBufferWriteMode = eventBufferWriteModeClear then
        deleteBufferedEvents b shardID domainID workflowID runID
      else
        appendBufferedEvents b shardID domainID workflowID runID
    let b := updateActivityInfos b shardID domainID workflowID runID
      execution.activityInfos execution.activityInfoKeysToDelete
    let b := updateTimerInfos b shardID domainID workflowID runID
      execution.timerInfos execution.timerInfoKeysToDelete
    let b := updateChildExecutionInfos b shardID domainID workflowID runID
      execution.childWorkflowInfos execution.childWorkflowInfoKeysToDelete
    let b := updateRequestCancelInfos b shardID domainID workflowID runID
      execution.requestCancelInfos execution.requestCancelInfoKeysToDelete
    let b := updateSignalInfos b shardID domainID workflowID runID
      execution.signalInfos execution.signalInfoKeysToDelete
    let b := updateSignalsRequested b shardID domainID workflowID runID
      execution.signalRequestedIDs execution.signalRequestedIDsToDelete
    (b, none)

/-! ## Current-execution-pointer writer

The two statements this writer can emit are rendered as strings exactly as
the repository's fake batch renders them (the template's placeholders
substituted by the arguments' `%v` forms), so the emitted batch is a
`List String` matching the unit tests' expected queries verbatim. -/

/-- Everything before the CAS clause of the rendered conditional insert of
the current-execution pointer row. -/
def insertCurrentWorkflowQueryHead (shardID : Int) (domainID workflowID : String)
    (row : CurrentWorkflowRow) : String :=
  "INSERT INTO executions (shard_id, type, domain_id, workflow_id, run_id, " ++
    "visibility_ts, task_id, current_run_id, execution, workflow_last_write_version, workflow_state) " ++
    "VALUES(" ++ toString shardID ++ ", " ++ toString rowTypeExecution ++ ", " ++
    domainID ++ ", " ++ workflowID ++ ", " ++ permanentRunID ++ ", " ++
    toString defaultVisibilityTimestamp ++ ", " ++ toString rowTypeExecutionTaskID ++ ", " ++
    row.runID ++ ", \x7brun_id: " ++ row.runID ++ ", create_request_id: " ++
    row.createRequestID ++ ", state: " ++ toString row.state ++ ", close_status: " ++
    toString row.closeStatus ++ "\x7d, " ++ toString row.lastWriteVersion ++ ", " ++
    toString row.state ++ ") "

/-- Rendered conditional insert of the current-execution pointer row: the
head followed by the CAS clause. -/
def insertCurrentWorkflowQuery (shardID : Int) (domainID workflowID : String)
    (row : CurrentWorkflowRow) : String :=
  insertCurrentWorkflowQueryHead shardID domainID workflowID row ++
    "IF NOT EXISTS USING TTL 0 "

/-- Everything before the CAS clause of the rendered conditional update of
the current-execution pointer row. -/
def updateCurrentWorkflowQueryHead (shardID : Int) (domainID workflowID : String)
    (row : CurrentWorkflowRow) : String :=
  "UPDATE executions USING TTL 0 SET current_run_id = " ++ row.runID ++
    ", execution = \x7brun_id: " ++ row.runID ++ ", create_request_id: " ++
    row.createRequestID ++ ", state: " ++ toString row.state ++ ", close_status: " ++
    toString row.closeStatus ++ "\x7d, workflow_last_write_version = " ++
    toString row.lastWriteVersion ++ ", workflow_state = " ++ toString row.state ++
    " WHERE shard_id = " ++ toString shardID ++ " and type = " ++ toString rowTypeExecution ++
    " and domain_id = " ++ domainID ++ " and workflow_id = " ++ workflowID ++
    " and run_id = " ++ permanentRunID ++ " and visibility_ts = " ++
    toString defaultVisibilityTimestamp ++ " and task_id = " ++ toString rowTypeExecutionTaskID ++ " "

/-- Rendered conditional update of the current-execution pointer row: the
head followed by the CAS clause on the expected current run id. -/
def updateCurrentWorkflowQuery (shardID : Int) (domainID workflowID : String)
    (row : CurrentWorkflowRow) (expectedCurrentRunID : String) : String :=
  updateCurrentWorkflowQueryHead shardID domainID workflowID row ++
    ("IF current_run_id = " ++ expectedCurrentRunID ++ " ")

/-- Modelled from the spec: `createOrUpdateCurrentWorkflow` (spec section
4.4), whose implementation file is not part of the sources. Dispatches on
the write mode: `Noop` emits nothing; `Insert` emits the conditional
insert; `Update` demands a condition carrying an expected current run id
and emits the conditional update; any other mode is a precondition error.
The repository's `TestCreateOrUpdateWorkflowExecution` pins that a supplied
`Condition.LastWriteVersion` leaves the emitted update statement unchanged,
so the writer renders the same statement with or without it. -/
def createOrUpdateCurrentWorkflow (batch : List String) (shardID : Int)
    (domainID workflowID : String) (request : CurrentWorkflowWriteRequest) :
    List String × Option String :=
  if request.writeMode = currentWorkflowWriteModeNoop then
    (batch, none)
  else if request.writeMode = currentWorkflowWriteModeInsert then
    (batch ++ [insertCurrentWorkflowQuery shardID domainID workflowID request.row], none)
  else if request.writeMode = currentWorkflowWriteModeUpdate then
    match request.condition.bind (fun c => c.currentRunID) with
    | none => (batch, some "CurrentWorkflowWriteModeUpdate require Condition.CurrentRunID")
    | some expected =>
      (batch ++ [updateCurrentWorkflowQuery shardID domainID workflowID request.row expected], none)
  else
    (batch, some ("unknown write mode: " ++ toString request.writeMode))

/-! ## Slice-reflection helper -/

/-- Dynamic value handed to the reflection helper, mirroring the kinds the
repository's `TestMustConvertToSlice` exercises. -/
inductive GoValue where
  | nilValue
  | strValue (s : String)
  | intValue (i : Int)
  | sliceValue (elems : List GoValue)
  | arrayValue (elems : List GoValue)
  deriving Repr

/-- Modelled from the spec: `mustConvertToSlice` (spec section 4.6), whose
implementation file is not part of the sources. For a slice or array it
returns the elements in order; for nil or any non-slice value the Go code
raises a fatal precondition panic, modelled as `none`. -/
def mustConvertToSlice : GoValue → Option (List GoValue)
  | .sliceValue elems => some elems
  | .arrayValue elems => some elems
  | _ => none

/-! ## Concrete inputs of the repository's unit tests -/

/-- Losing row of the tests named "execution already exists": the
current-execution pointer row carrying a populated `execution` column. -/
def prevRowExecAlreadyExists : PrevRow :=
  { rowType := some rowTypeExecution
    runID := some permanentRunID
    rangeID := some 100
    workflowLastWriteVersion := some 3
    execution := some
      { workflowID := "test-workflow-id"
        runID := some "bda9cd9c-32fb-4267-b120-346e5351fc46"
        state := 1 } }

/-- Losing shard row of the tests named "shard range id mismatch". -/
def prevRowShardMismatch : PrevRow :=
  { rowType := some rowTypeShard
    runID := some "bda9cd9c-32fb-4267-b120-346e5351fc46"
    rangeID := some 200 }

/-- Losing pointer row of the create tests named "creation condition failed"
(with and without a caller condition). -/
def prevRowCreationCondFailed : PrevRow :=
  { rowType := some rowTypeExecution
    runID := some permanentRunID
    rangeID := some 100
    workflowLastWriteVersion := some 3
    currentRunID := some "bda9cd9c-32fb-4267-b120-346e5351fc46" }

/-- Losing target execution row of the create tests named "execution already
running" and "unknown condition failure". -/
def prevRowExecRunning : PrevRow :=
  { rowType := some rowTypeExecution
    runID := some "bda9cd9c-32fb-4267-b120-346e5351fc46"
    rangeID := some 100
    workflowLastWriteVersion := some 3 }

/-- Losing target execution row of the update test named "nextEventID
mismatch for execution row". -/
def prevRowNextEventIDMismatch : PrevRow :=
  { rowType := some rowTypeExecution
    runID := some "0875863e-dcef-496a-b8a2-3210b2958e25"
    nextEventID := some 10 }

/-- Losing pointer row of the update tests named "runID mismatch for current
execution row" and "unknown condition failure". -/
def prevRowCurrentRunUpdate : PrevRow :=
  { rowType := some rowTypeExecution
    runID := some permanentRunID
    currentRunID := some "0875863e-dcef-496a-b8a2-3210b2958e25" }

/-- Pointer-row write request of the `Insert` test case. -/
def insertCurrentWFReq : CurrentWorkflowWriteRequest :=
  { writeMode := currentWorkflowWriteModeInsert
    row := { runID := "runid1", createRequestID := "createRequestID1" } }

/-- Pointer-row write request of the plain `Update` test case. -/
def updateCurrentWFReq : CurrentWorkflowWriteRequest :=
  { writeMode := currentWorkflowWriteModeUpdate
    condition := some { currentRunID := some "runid1" }
    row := { runID := "runid1", createRequestID := "createRequestID1" } }

/-- Pointer-row write request of the `Update` test case that also supplies
`Condition.LastWriteVersion`. -/
def updateCurrentWFReqWithLWV : CurrentWorkflowWriteRequest :=
  { writeMode := currentWorkflowWriteModeUpdate
    condition := some { currentRunID := some "runid1", lastWriteVersion := some 1 }
    row := { runID := "runid1", createRequestID := "createRequestID1" } }

/-- The two timer tasks of `TestCreateTimerTasks` (scheduled times
2023-12-12T22:08:41Z and one minute later, as epoch nanoseconds). -/
def testTimerTasks : List TimerTask :=
  [ { runID := "rundid_1", taskID := 1, taskType := 1, timeoutType := 1, eventID := 10
      visibilityTimestamp := 1702418921000000000 },
    { runID := "rundid_1", taskID := 2, taskType := 1, timeoutType := 1, eventID := 11
      visibilityTimestamp := 1702418981000000000 } ]

/-- The cross-cluster task of `TestCrossClusterTasks` (target cluster unset). -/
def testCrossClusterTask : CrossClusterTask :=
  { transferTask :=
      { runID := "rundid_1", taskID := 355, version := 1
        visibilityTimestamp := 1702418921000000000
        targetDomainID := "e2bf2c8f-0ddf-4451-8840-27cfe8addd62"
        targetWorkflowID := "20000000-0000-f000-f000-000000000001"
        targetRunID := "30000000-0000-f000-f000-000000000002"
        targetChildWorkflowOnly := true, taskList := "tasklist_1", scheduleID := 14 } }

/-- Create-composite request with one entry in each sub-map and one
signal-requested id, as in the "ok" case of
`TestCreateWorkflowExecutionWithMergeMaps`. -/
def createReqOneEntryEach : WorkflowExecutionRequest :=
  { eventBufferWriteMode := eventBufferWriteModeNone
    mapsWriteMode := workflowExecutionMapsWriteModeCreate
    activityInfos := [(1, { version := 1, scheduleID := 1, startedID := 2, activityID := "activity1" })]
    timerInfos := [("timer1", { version := 1, timerID := "timer1", startedID := 2, taskStatus := 1 })]
    childWorkflowInfos := [(1, { version := 1, initiatedID := 1, startedID := 3, startedRunID := "startedRunID1" })]
    requestCancelInfos := [(1, { version := 1, initiatedID := 1, cancelRequestID := "cancelRequest1" })]
    signalInfos := [(1, { version := 1, initiatedID := 1, signalRequestID := "request1", signalName := "signal1" })]
    signalRequestedIDs := ["signalRequestedID1"] }

/-- Reset-composite request with empty sub-maps, as in the "ok" case of
`TestResetWorkflowExecutionAndMapsAndEventBuffer`. -/
def resetReqEmptyMaps : WorkflowExecutionRequest :=
  { eventBufferWriteMode := eventBufferWriteModeClear
    mapsWriteMode := workflowExecutionMapsWriteModeReset }

/-! ## Test-vector checks

Each of the following pins the model to one expected outcome of the
repository's unit tests. -/

/-- Vector "applied" of `TestExecuteCreateWorkflowBatchTransaction`. -/
theorem createTx_applied_vector :
    executeCreateWorkflowBatchTransaction { mapExecuteBatchCASApplied := true } {} {} {} =
      (.ok, { closed := true }) := by
  decide

/-- Vector "CAS error" of `TestExecuteCreateWorkflowBatchTransaction`: the
driver error is propagated verbatim and the iterator is still closed. -/
theorem createTx_casError_vector :
    executeCreateWorkflowBatchTransaction
      { mapExecuteBatchCASErr := some "db operation failed for some reason" } {} {} {} =
      (.driverErr "db operation failed for some reason", { closed := true }) := by
  decide

/-- Vector "shard range id mismatch" of
`TestExecuteCreateWorkflowBatchTransaction`. -/
theorem createTx_shardMismatch_vector :
    (executeCreateWorkflowBatchTransaction
      { mapExecuteBatchCASApplied := false, mapExecuteBatchCASPrev := prevRowShardMismatch }
      {} {} { rangeID := 100 }).1 =
      .condFailure { shardRangeIDNotMatch := some 200 } := by
  decide

/-- Vector "execution already exists" of
`TestExecuteCreateWorkflowBatchTransaction` (write mode not `Insert`). -/
theorem createTx_alreadyExists_vector :
    (executeCreateWorkflowBatchTransaction
      { mapExecuteBatchCASApplied := false, mapExecuteBatchCASPrev := prevRowExecAlreadyExists }
      {} {} { rangeID := 100 }).1 =
      .condFailure
        { currentWorkflowConditionFailInfo := some
            ("Workflow execution already running. WorkflowId: test-workflow-id, " ++
              "RunId: bda9cd9c-32fb-4267-b120-346e5351fc46, rangeID: 100") } := by
  decide

/-- Vector "creation condition failed by mismatch runID" of
`TestExecuteCreateWorkflowBatchTransaction`. -/
theorem createTx_mismatchRunID_vector :
    (executeCreateWorkflowBatchTransaction
      { mapExecuteBatchCASApplied := false, mapExecuteBatchCASPrev := prevRowCreationCondFailed }
      { condition := some { currentRunID := some "fd88863f-bb32-4daa-8878-49e08b91545e" } }
      { workflowID := "wfid" } { rangeID := 100 }).1 =
      .condFailure
        { currentWorkflowConditionFailInfo := some
            ("Workflow execution creation condition failed by mismatch runID. " ++
              "WorkflowId: wfid, Expected Current RunID: fd88863f-bb32-4daa-8878-49e08b91545e, " ++
              "Actual Current RunID: bda9cd9c-32fb-4267-b120-346e5351fc46") } := by
  decide

/-- Vector "creation condition failed" of
`TestExecuteCreateWorkflowBatchTransaction` (no caller condition). -/
theorem createTx_condFailed_vector :
    (executeCreateWorkflowBatchTransaction
      { mapExecuteBatchCASApplied := false, mapExecuteBatchCASPrev := prevRowCreationCondFailed }
      {} { workflowID := "wfid", runID := "bda9cd9c-32fb-4267-b120-346e5351fc46" }
      { rangeID := 100 }).1 =
      .condFailure
        { currentWorkflowConditionFailInfo := some
            ("Workflow execution creation condition failed. WorkflowId: wfid, " ++
              "CurrentRunID: bda9cd9c-32fb-4267-b120-346e5351fc46") } := by
  decide

/-- Vector "unknown condition failure" of
`TestExecuteCreateWorkflowBatchTransaction`. -/
theorem createTx_unknown_vector :
    (executeCreateWorkflowBatchTransaction
      { mapExecuteBatchCASApplied := false, mapExecuteBatchCASPrev := prevRowExecRunning }
      {} { runID := "something else" } { rangeID := 100 }).1 =
      .condFailure
        { unknownConditionFailureDetails := some
            "Failed to operate on workflow execution.  Request RangeID: 100" } := by
  decide

/-- Vector "runID mismatch for current execution row" of
`TestExecuteUpdateWorkflowBatchTransaction`. -/
theorem updateTx_runIDMismatch_vector :
    (executeUpdateWorkflowBatchTransaction
      { mapExecuteBatchCASApplied := false, mapExecuteBatchCASPrev := prevRowCurrentRunUpdate }
      { condition := some { currentRunID := some "fd88863f-bb32-4daa-8878-49e08b91545e" } }
      0 {}).1 =
      .condFailure
        { currentWorkflowConditionFailInfo := some
            ("Failed to update mutable state. requestConditionalRunID: fd88863f-bb32-4daa-8878-49e08b91545e, " ++
              "Actual Value: 0875863e-dcef-496a-b8a2-3210b2958e25") } := by
  decide

/-- Vector "unknown condition failure" of
`TestExecuteUpdateWorkflowBatchTransaction` (the caller's condition matches
the pointer row, so the diagnosis falls through to the catch-all). -/
theorem updateTx_unknown_vector :
    (executeUpdateWorkflowBatchTransaction
      { mapExecuteBatchCASApplied := false, mapExecuteBatchCASPrev := prevRowCurrentRunUpdate }
      { condition := some { currentRunID := some "0875863e-dcef-496a-b8a2-3210b2958e25" } }
      11 { shardID := 345, rangeID := 200 }).1 =
      .condFailure
        { unknownConditionFailureDetails := some
            ("Failed to update mutable state. ShardID: 345, RangeID: 200, " ++
              "previousNextEventIDCondition: 11, requestConditionalRunID: 0875863e-dcef-496a-b8a2-3210b2958e25") } := by
  decide

/-- The `Insert` case of `TestCreateOrUpdateWorkflowExecution`: the emitted
statement matches the test's expected query byte for byte. -/
theorem currentWorkflow_insert_vector :
    createOrUpdateCurrentWorkflow [] 1000 "domain1" "workflow1" insertCurrentWFReq =
      (["INSERT INTO executions (shard_id, type, domain_id, workflow_id, run_id, " ++
        "visibility_ts, task_id, current_run_id, execution, workflow_last_write_version, workflow_state) " ++
        "VALUES(1000, 1, domain1, workflow1, 30000000-0000-f000-f000-000000000001, " ++
        "946684800000, -10, runid1, \x7brun_id: runid1, create_request_id: createRequestID1, " ++
        "state: 0, close_status: 0\x7d, 0, 0) IF NOT EXISTS USING TTL 0 "], none) := by
  decide

/-- The plain `Update` case of `TestCreateOrUpdateWorkflowExecution`: the
emitted statement matches the test's expected query byte for byte. -/
theorem currentWorkflow_update_vector :
    createOrUpdateCurrentWorkflow [] 1000 "domain1" "workflow1" updateCurrentWFReq =
      (["UPDATE executions USING TTL 0 SET current_run_id = runid1, execution = " ++
        "\x7brun_id: runid1, create_request_id: createRequestID1, state: 0, close_status: 0\x7d, " ++
        "workflow_last_write_version = 0, workflow_state = 0 WHERE shard_id = 1000 and type = 1 " ++
        "and domain_id = domain1 and workflow_id = workflow1 and " ++
        "run_id = 30000000-0000-f000-f000-000000000001 and visibility_ts = 946684800000 " ++
        "and task_id = -10 IF current_run_id = runid1 "], none) := by
  decide

/-- The timer rows of `TestCreateTimerTasks` carry the scheduled times in
epoch milliseconds as their `visibility_ts`, matching the expected queries. -/
theorem timerTasks_visibility_vector :
    (createTimerTasks [] 1000 "domain_xyz" "workflow_xyz" testTimerTasks).map
      (fun r => (r.visibilityTs, r.taskID)) = [(1702418921000, 1), (1702418981000, 2)] := by
  decide

/-! ## Helper facts for branch discrimination -/

/-- Execution rows and shard rows have distinct type discriminators. -/
theorem rowTypeExecution_ne_shard : ¬ (rowTypeExecution = rowTypeShard) := by decide

/-! ## Claims -/

/-- C1: when the create executor sees a non-applied CAS whose losing row is
the current-execution pointer row (`type = execution`, `run_id =
permanentRunID`) with an `execution` column whose `run_id` is present, it
returns exactly the `WorkflowExecutionAlreadyExists` variant (carrying that
run id, the record's state, the row's `workflow_last_write_version` and the
already-running message) when the caller's write mode is `Insert`, and
otherwise exactly the `CurrentWorkflowConditionFailInfo` variant with the
same message. -/
theorem createTx_currentRow_alreadyExists_classification (session : FakeSession)
    (currentWFReq : CurrentWorkflowWriteRequest) (execution : InternalWorkflowExecutionInfo)
    (shardCond : ShardCondition) (execCol : ExecutionColumn) (rid : String) (lwv : Int)
    (herr : session.mapExecuteBatchCASErr = none)
    (happ : session.mapExecuteBatchCASApplied = false)
    (htype : session.mapExecuteBatchCASPrev.rowType = some rowTypeExecution)
    (hrun : session.mapExecuteBatchCASPrev.runID = some permanentRunID)
    (hexec : session.mapExecuteBatchCASPrev.execution = some execCol)
    (hrid : execCol.runID = some rid)
    (hlwv : session.mapExecuteBatchCASPrev.workflowLastWriteVersion = some lwv) :
    (executeCreateWorkflowBatchTransaction session currentWFReq execution shardCond).1 =
      .condFailure
        (if currentWFReq.writeMode = currentWorkflowWriteModeInsert then
          { workflowExecutionAlreadyExists := some
              { otherInfo := "Workflow execution already running. WorkflowId: " ++
                  execCol.workflowID ++ ", RunId: " ++ rid ++ ", rangeID: " ++
                  toString shardCond.rangeID
                createRequestID := execCol.createRequestID
                runID := rid
                state := execCol.state
                lastWriteVersion := lwv } }
        else
          { currentWorkflowConditionFailInfo := some
              ("Workflow execution already running. WorkflowId: " ++ execCol.workflowID ++
                ", RunId: " ++ rid ++ ", rangeID: " ++ toString shardCond.rangeID) }) := by
  by_cases hw : currentWFReq.writeMode = currentWorkflowWriteModeInsert <;>
    simp [executeCreateWorkflowBatchTransaction, classifyCreateFailure, herr, happ,
      htype, hrun, hexec, hrid, hlwv, hw, rowTypeExecution_ne_shard]

/-- C1 witness: the two "execution already exists" cases of
`TestExecuteCreateWorkflowBatchTransaction`, one with write mode `Insert`
and one without. -/
theorem createTx_currentRow_alreadyExists_witness :
    (executeCreateWorkflowBatchTransaction
      { mapExecuteBatchCASApplied := false, mapExecuteBatchCASPrev := prevRowExecAlreadyExists }
      { writeMode := currentWorkflowWriteModeInsert } {} { rangeID := 100 }).1 =
      .condFailure
        { workflowExecutionAlreadyExists := some
            { otherInfo := "Workflow execution already running. WorkflowId: test-workflow-id, " ++
                "RunId: bda9cd9c-32fb-4267-b120-346e5351fc46, rangeID: 100"
              createRequestID := ""
              runID := "bda9cd9c-32fb-4267-b120-346e5351fc46"
              state := 1
              lastWriteVersion := 3 } } ∧
    (executeCreateWorkflowBatchTransaction
      { mapExecuteBatchCASApplied := false, mapExecuteBatchCASPrev := prevRowExecAlreadyExists }
      {} {} { rangeID := 100 }).1 =
      .condFailure
        { currentWorkflowConditionFailInfo := some
            ("Workflow execution already running. WorkflowId: test-workflow-id, " ++
              "RunId: bda9cd9c-32fb-4267-b120-346e5351fc46, rangeID: 100") } := by
  constructor
  · have h := createTx_currentRow_alreadyExists_classification
      { mapExecuteBatchCASApplied := false, mapExecuteBatchCASPrev := prevRowExecAlreadyExists }
      { writeMode := currentWorkflowWriteModeInsert } {} { rangeID := 100 }
      (prevRowExecAlreadyExists.execution.get (by decide))
      "bda9cd9c-32fb-4267-b120-346e5351fc46" 3 rfl rfl rfl rfl rfl rfl rfl
    simpa using h
  · have h := createTx_currentRow_alreadyExists_classification
      { mapExecuteBatchCASApplied := false, mapExecuteBatchCASPrev := prevRowExecAlreadyExists }
      {} {} { rangeID := 100 }
      (prevRowExecAlreadyExists.execution.get (by decide))
      "bda9cd9c-32fb-4267-b120-346e5351fc46" 3 rfl rfl rfl rfl rfl rfl rfl
    simpa using h

/-- C2: both batch executors close the iterator returned by the CAS call
before returning, for every combination of applied flag, driver error and
losing row, as the deferred close in the embedding fires on every exit
path. -/
theorem executors_close_iterator (session : FakeSession)
    (createReq updateReq : CurrentWorkflowWriteRequest)
    (execution : InternalWorkflowExecutionInfo) (prevNextEventIDCond : Int)
    (createShardCond updateShardCond : ShardCondition) :
    (executeCreateWorkflowBatchTransaction session createReq execution createShardCond).2.closed = true ∧
    (executeUpdateWorkflowBatchTransaction session updateReq prevNextEventIDCond updateShardCond).2.closed = true :=
  ⟨rfl, rfl⟩

/-- C4: when the update executor sees a non-applied CAS whose losing row is
the target execution row (`type = execution`, `run_id` equal to the
request's current run id) with a `next_event_id` different from the
optimistic-concurrency token, it returns exactly the
`UnknownConditionFailureDetails` variant with the mismatch message. -/
theorem updateTx_nextEventID_mismatch_classification (session : FakeSession)
    (currentWFReq : CurrentWorkflowWriteRequest) (prevNextEventIDCond : Int)
    (shardCond : ShardCondition) (actualNextEventID : Int)
    (herr : session.mapExecuteBatchCASErr = none)
    (happ : session.mapExecuteBatchCASApplied = false)
    (htype : session.mapExecuteBatchCASPrev.rowType = some rowTypeExecution)
    (hrun : session.mapExecuteBatchCASPrev.runID = some currentWFReq.row.runID)
    (hnext : session.mapExecuteBatchCASPrev.nextEventID = some actualNextEventID)
    (hne : actualNextEventID ≠ prevNextEventIDCond) :
    (executeUpdateWorkflowBatchTransaction session currentWFReq prevNextEventIDCond shardCond).1 =
      .condFailure
        { unknownConditionFailureDetails := some
            ("Failed to update mutable state. previousNextEventIDCondition: " ++
              toString prevNextEventIDCond ++ ", actualNextEventID: " ++
              toString actualNextEventID ++ ", Request Current RunID: " ++
              currentWFReq.row.runID) } := by
  simp [executeUpdateWorkflowBatchTransaction, classifyUpdateFailure, herr, happ,
    htype, hrun, hnext, hne, rowTypeExecution_ne_shard]

/-- C4 witness: the "nextEventID mismatch for execution row" case of
`TestExecuteUpdateWorkflowBatchTransaction`. -/
theorem updateTx_nextEventID_mismatch_witness :
    (executeUpdateWorkflowBatchTransaction
      { mapExecuteBatchCASApplied := false, mapExecuteBatchCASPrev := prevRowNextEventIDMismatch }
      { row := { runID := "0875863e-dcef-496a-b8a2-3210b2958e25" } }
      11 { rangeID := 200 }).1 =
      .condFailure
        { unknownConditionFailureDetails := some
            ("Failed to update mutable state. previousNextEventIDCondition: 11, " ++
              "actualNextEventID: 10, Request Current RunID: 0875863e-dcef-496a-b8a2-3210b2958e25") } := by
  have h := updateTx_nextEventID_mismatch_classification
    { mapExecuteBatchCASApplied := false, mapExecuteBatchCASPrev := prevRowNextEventIDMismatch }
    { row := { runID := "0875863e-dcef-496a-b8a2-3210b2958e25" } }
    11 { rangeID := 200 } 10 rfl rfl rfl rfl rfl (by decide)
  simpa using h

/-- C10: when the create executor classifies a CAS failure whose losing row
is the target execution row (`type = execution`, `run_id` equal to the
request's run id, which is not the permanent sentinel), the
`WorkflowExecutionAlreadyExists` variant mixes provenance: run id, create
request id and state come from the caller's execution request, while the
last write version comes from the losing row's
`workflow_last_write_version` column. -/
theorem createTx_targetRow_provenance (session : FakeSession)
    (currentWFReq : CurrentWorkflowWriteRequest) (execution : InternalWorkflowExecutionInfo)
    (shardCond : ShardCondition) (lwv : Int)
    (herr : session.mapExecuteBatchCASErr = none)
    (happ : session.mapExecuteBatchCASApplied = false)
    (htype : session.mapExecuteBatchCASPrev.rowType = some rowTypeExecution)
    (hrun : session.mapExecuteBatchCASPrev.runID = some execution.runID)
    (hnotPermanent : execution.runID ≠ permanentRunID)
    (hlwv : session.mapExecuteBatchCASPrev.workflowLastWriteVersion = some lwv) :
    (executeCreateWorkflowBatchTransaction session currentWFReq execution shardCond).1 =
      .condFailure
        { workflowExecutionAlreadyExists := some
            { otherInfo := "Workflow execution already running. WorkflowId: " ++
                execution.workflowID ++ ", RunId: " ++ execution.runID ++ ", rangeID: " ++
                toString shardCond.rangeID
              createRequestID := execution.createRequestID
              runID := execution.runID
              state := execution.state
              lastWriteVersion := lwv } } := by
  simp [executeCreateWorkflowBatchTransaction, classifyCreateFailure, herr, happ,
    htype, hrun, hnotPermanent, hlwv, rowTypeExecution_ne_shard]

/-- C10 witness: the "execution already running" case of
`TestExecuteCreateWorkflowBatchTransaction`, whose expected failure carries
the request's run id, create request id and state next to the row's last
write version. -/
theorem createTx_targetRow_provenance_witness :
    (executeCreateWorkflowBatchTransaction
      { mapExecuteBatchCASApplied := false, mapExecuteBatchCASPrev := prevRowExecRunning }
      {} { workflowID := "wfid", runID := "bda9cd9c-32fb-4267-b120-346e5351fc46",
           createRequestID := "reqid_123", state := 2 }
      { rangeID := 100 }).1 =
      .condFailure
        { workflowExecutionAlreadyExists := some
            { otherInfo := "Workflow execution already running. WorkflowId: wfid, " ++
                "RunId: bda9cd9c-32fb-4267-b120-346e5351fc46, rangeID: 100"
              createRequestID := "reqid_123"
              runID := "bda9cd9c-32fb-4267-b120-346e5351fc46"
              state := 2
              lastWriteVersion := 3 } } := by
  have h := createTx_targetRow_provenance
    { mapExecuteBatchCASApplied := false, mapExecuteBatchCASPrev := prevRowExecRunning }
    {} { workflowID := "wfid", runID := "bda9cd9c-32fb-4267-b120-346e5351fc46",
         createRequestID := "reqid_123", state := 2 }
    { rangeID := 100 } 3 rfl rfl rfl rfl (by decide) rfl
  simpa using h

/-- Create-composite request whose event-buffer mode is not `None`, as in
the first case of `TestCreateWorkflowExecutionWithMergeMaps`. -/
def badCreateModesReq : WorkflowExecutionRequest :=
  { eventBufferWriteMode := eventBufferWriteModeAppend
    mapsWriteMode := workflowExecutionMapsWriteModeCreate }

/-- Reset-composite request whose maps mode is not `Reset`, as in the second
case of `TestResetWorkflowExecutionAndMapsAndEventBuffer`. -/
def badResetModesReq : WorkflowExecutionRequest :=
  { eventBufferWriteMode := eventBufferWriteModeClear
    mapsWriteMode := workflowExecutionMapsWriteModeUpdate }

/-- Update-composite request whose maps mode is not `Update`, as in the
first case of `TestUpdateWorkflowExecutionAndEventBufferWithMergeAndDeleteMaps`. -/
def badUpdateModesReq : WorkflowExecutionRequest :=
  { eventBufferWriteMode := eventBufferWriteModeClear
    mapsWriteMode := workflowExecutionMapsWriteModeCreate }

/-- C3: each composite writer rejects a request whose write-mode pair is not
exactly the one it requires, returning a precondition error with the batch
left untouched (zero statements appended): the create composite requires
`(None, Create)`, the reset composite `(Clear, Reset)`, and the update
composite `Update` with `Clear` or `Append`. -/
theorem compositeWriters_wrongModes_reject (batch : List ExecStmt) (shardID : Int)
    (domainID workflowID : String) (execution : WorkflowExecutionRequest) :
    (¬ (execution.eventBufferWriteMode = eventBufferWriteModeNone ∧
        execution.mapsWriteMode = workflowExecutionMapsWriteModeCreate) →
      (createWorkflowExecutionWithMergeMaps batch shardID domainID workflowID execution).1 = batch ∧
      (createWorkflowExecutionWithMergeMaps batch shardID domainID workflowID execution).2.isSome = true) ∧
    (¬ (execution.eventBufferWriteMode = eventBufferWriteModeClear ∧
        execution.mapsWriteMode = workflowExecutionMapsWriteModeReset) →
      (resetWorkflowExecutionAndMapsAndEventBuffer batch shardID domainID workflowID execution).1 = batch ∧
      (resetWorkflowExecutionAndMapsAndEventBuffer batch shardID domainID workflowID execution).2.isSome = true) ∧
    (¬ (execution.mapsWriteMode = workflowExecutionMapsWriteModeUpdate ∧
        (execution.eventBufferWriteMode = eventBufferWriteModeClear ∨
          execution.eventBufferWriteMode = eventBufferWriteModeAppend)) →
      (updateWorkflowExecutionAndEventBufferWithMergeAndDeleteMaps batch shardID domainID workflowID execution).1 = batch ∧
      (updateWorkflowExecutionAndEventBufferWithMergeAndDeleteMaps batch shardID domainID workflowID execution).2.isSome = true) := by
  refine ⟨?_, ?_, ?_⟩
  · intro h
    unfold createWorkflowExecutionWithMergeMaps
    by_cases h1 : execution.eventBufferWriteMode = eventBufferWriteModeNone
    · have h2 : execution.mapsWriteMode ≠ workflowExecutionMapsWriteModeCreate :=
        fun hc => h ⟨h1, hc⟩
      rw [if_neg (not_not_intro h1), if_pos h2]
      exact ⟨rfl, rfl⟩
    · rw [if_pos h1]
      exact ⟨rfl, rfl⟩
  · intro h
    unfold resetWorkflowExecutionAndMapsAndEventBuffer
    by_cases h1 : execution.eventBufferWriteMode = eventBufferWriteModeClear
    · have h2 : execution.mapsWriteMode ≠ workflowExecutionMapsWriteModeReset :=
        fun hc => h ⟨h1, hc⟩
      rw [if_neg (not_not_intro h1), if_pos h2]
      exact ⟨rfl, rfl⟩
    · rw [if_pos h1]
      exact ⟨rfl, rfl⟩
  · intro h
    unfold updateWorkflowExecutionAndEventBufferWithMergeAndDeleteMaps
    by_cases h1 : execution.mapsWriteMode = workflowExecutionMapsWriteModeUpdate
    · have h2 : execution.eventBufferWriteMode ≠ eventBufferWriteModeClear ∧
          execution.eventBufferWriteMode ≠ eventBufferWriteModeAppend :=
        ⟨fun hc => h ⟨h1, Or.inl hc⟩, fun hc => h ⟨h1, Or.inr hc⟩⟩
      rw [if_neg (not_not_intro h1), if_pos h2]
      exact ⟨rfl, rfl⟩
    · rw [if_pos h1]
      exact ⟨rfl, rfl⟩

/-- C3 witness: the three wrong-mode cases of the composite-writer tests all
error with nothing appended to an empty batch. -/
theorem compositeWriters_wrongModes_reject_witness :
    ((createWorkflowExecutionWithMergeMaps [] 1000 "domain1" "workflow1" badCreateModesReq).1 = [] ∧
      (createWorkflowExecutionWithMergeMaps [] 1000 "domain1" "workflow1" badCreateModesReq).2.isSome = true) ∧
    ((resetWorkflowExecutionAndMapsAndEventBuffer [] 1000 "domain1" "workflow1" badResetModesReq).1 = [] ∧
      (resetWorkflowExecutionAndMapsAndEventBuffer [] 1000 "domain1" "workflow1" badResetModesReq).2.isSome = true) ∧
    ((updateWorkflowExecutionAndEventBufferWithMergeAndDeleteMaps [] 1000 "domain1" "workflow1" badUpdateModesReq).1 = [] ∧
      (updateWorkflowExecutionAndEventBufferWithMergeAndDeleteMaps [] 1000 "domain1" "workflow1" badUpdateModesReq).2.isSome = true) := by
  refine ⟨?_, ?_, ?_⟩
  · exact (compositeWriters_wrongModes_reject [] 1000 "domain1" "workflow1" badCreateModesReq).1 (by decide)
  · exact (compositeWriters_wrongModes_reject [] 1000 "domain1" "workflow1" badResetModesReq).2.1 (by decide)
  · exact (compositeWriters_wrongModes_reject [] 1000 "domain1" "workflow1" badUpdateModesReq).2.2 (by decide)

/-- C8: with the required modes, a create request carrying one entry in each
sub-map and one signal-requested id yields exactly 7 appended statements,
and a reset request with empty sub-maps yields exactly 8 (execution row,
buffered-events delete and six whole-map overwrites including
signal-requested). -/
theorem composite_statement_counts (batch : List ExecStmt) (shardID : Int)
    (domainID workflowID : String) (execCreate execReset : WorkflowExecutionRequest)
    (a : Int × ActivityInfo) (ti : String × TimerInfo) (ch : Int × ChildExecutionInfo)
    (rc : Int × RequestCancelInfo) (si : Int × SignalInfo) (sr : String)
    (hc1 : execCreate.eventBufferWriteMode = eventBufferWriteModeNone)
    (hc2 : execCreate.mapsWriteMode = workflowExecutionMapsWriteModeCreate)
    (hc3 : execCreate.activityInfos = [a]) (hc4 : execCreate.timerInfos = [ti])
    (hc5 : execCreate.childWorkflowInfos = [ch]) (hc6 : execCreate.requestCancelInfos = [rc])
    (hc7 : execCreate.signalInfos = [si]) (hc8 : execCreate.signalRequestedIDs = [sr])
    (hr1 : execReset.eventBufferWriteMode = eventBufferWriteModeClear)
    (hr2 : execReset.mapsWriteMode = workflowExecutionMapsWriteModeReset)
    (hr3 : execReset.activityInfos = []) (hr4 : execReset.timerInfos = [])
    (hr5 : execReset.childWorkflowInfos = []) (hr6 : execReset.requestCancelInfos = [])
    (hr7 : execReset.signalInfos = []) (hr8 : execReset.signalRequestedIDs = []) :
    ((createWorkflowExecutionWithMergeMaps batch shardID domainID workflowID execCreate).1.length =
        batch.length + 7 ∧
      (createWorkflowExecutionWithMergeMaps batch shardID domainID workflowID execCreate).2 = none) ∧
    ((resetWorkflowExecutionAndMapsAndEventBuffer batch shardID domainID workflowID execReset).1.length =
        batch.length + 8 ∧
      (resetWorkflowExecutionAndMapsAndEventBuffer batch shardID domainID workflowID execReset).2 = none) := by
  constructor
  · constructor
    · simp [createWorkflowExecutionWithMergeMaps, hc1, hc2, hc3, hc4, hc5, hc6, hc7, hc8,
        createWorkflowExecution, updateActivityInfos, updateTimerInfos,
        updateChildExecutionInfos, updateRequestCancelInfos, updateSignalInfos,
        updateSignalsRequested]
    · simp [createWorkflowExecutionWithMergeMaps, hc1, hc2]
  · constructor
    · simp [resetWorkflowExecutionAndMapsAndEventBuffer, hr1, hr2, hr3, hr4, hr5, hr6, hr7, hr8,
        updateWorkflowExecution, deleteBufferedEvents, resetActivityInfos, resetTimerInfos,
        resetChildExecutionInfos, resetRequestCancelInfos, resetSignalInfos,
        resetSignalsRequested]
    · simp [resetWorkflowExecutionAndMapsAndEventBuffer, hr1, hr2]

/-- C8 witness: the "ok" cases of `TestCreateWorkflowExecutionWithMergeMaps`
and `TestResetWorkflowExecutionAndMapsAndEventBuffer` produce 7 and 8
statements on an empty batch. -/
theorem composite_statement_counts_witness :
    ((createWorkflowExecutionWithMergeMaps [] 1000 "domain1" "workflow1" createReqOneEntryEach).1.length = 7 ∧
      (createWorkflowExecutionWithMergeMaps [] 1000 "domain1" "workflow1" createReqOneEntryEach).2 = none) ∧
    ((resetWorkflowExecutionAndMapsAndEventBuffer [] 1000 "domain1" "workflow1" resetReqEmptyMaps).1.length = 8 ∧
      (resetWorkflowExecutionAndMapsAndEventBuffer [] 1000 "domain1" "workflow1" resetReqEmptyMaps).2 = none) := by
  have h := composite_statement_counts [] 1000 "domain1" "workflow1"
    createReqOneEntryEach resetReqEmptyMaps
    (1, { version := 1, scheduleID := 1, startedID := 2, activityID := "activity1" })
    ("timer1", { version := 1, timerID := "timer1", startedID := 2, taskStatus := 1 })
    (1, { version := 1, initiatedID := 1, startedID := 3, startedRunID := "startedRunID1" })
    (1, { version := 1, initiatedID := 1, cancelRequestID := "cancelRequest1" })
    (1, { version := 1, initiatedID := 1, signalRequestID := "request1", signalName := "signal1" })
    "signalRequestedID1"
    rfl rfl rfl rfl rfl rfl rfl rfl rfl rfl rfl rfl rfl rfl rfl rfl
  simpa using h

/-- C5 counterexample: in the pinned `Update` tests, supplying
`Condition.LastWriteVersion` leaves the writer's output identical to the
call without it, and the single emitted statement's only CAS clause is
`IF current_run_id = runid1` — the supplied last write version does not
further constrain the CAS. -/
theorem currentWorkflow_lastWriteVersion_no_constraint :
    createOrUpdateCurrentWorkflow [] 1000 "domain1" "workflow1" updateCurrentWFReqWithLWV =
      createOrUpdateCurrentWorkflow [] 1000 "domain1" "workflow1" updateCurrentWFReq ∧
    (createOrUpdateCurrentWorkflow [] 1000 "domain1" "workflow1" updateCurrentWFReqWithLWV).1 =
      ["UPDATE executions USING TTL 0 SET current_run_id = runid1, execution = " ++
        "\x7brun_id: runid1, create_request_id: createRequestID1, state: 0, close_status: 0\x7d, " ++
        "workflow_last_write_version = 0, workflow_state = 0 WHERE shard_id = 1000 and type = 1 " ++
        "and domain_id = domain1 and workflow_id = workflow1 and " ++
        "run_id = 30000000-0000-f000-f000-000000000001 and visibility_ts = 946684800000 " ++
        "and task_id = -10 IF current_run_id = runid1 "] := by
  exact ⟨by decide, by decide⟩

/-- C5 (amended): the current-workflow writer dispatches on the write mode —
`Noop` appends nothing; `Insert` appends one conditional insert ending in
`IF NOT EXISTS USING TTL 0`; `Update` errors without a condition carrying an
expected current run id and otherwise appends one update conditioned on
`IF current_run_id = <expected>`; any other mode errors; and a supplied
`Condition.LastWriteVersion` does not change the writer's output. -/
theorem createOrUpdateCurrentWorkflow_dispatch (batch : List String) (shardID : Int)
    (domainID workflowID : String) (request : CurrentWorkflowWriteRequest) :
    (request.writeMode = currentWorkflowWriteModeNoop →
      createOrUpdateCurrentWorkflow batch shardID domainID workflowID request = (batch, none)) ∧
    (request.writeMode = currentWorkflowWriteModeInsert →
      createOrUpdateCurrentWorkflow batch shardID domainID workflowID request =
        (batch ++ [insertCurrentWorkflowQuery shardID domainID workflowID request.row], none) ∧
      ∃ p, insertCurrentWorkflowQuery shardID domainID workflowID request.row =
        p ++ "IF NOT EXISTS USING TTL 0 ") ∧
    (request.writeMode = currentWorkflowWriteModeUpdate →
      (request.condition.bind (fun c => c.currentRunID) = none →
        (createOrUpdateCurrentWorkflow batch shardID domainID workflowID request).1 = batch ∧
        (createOrUpdateCurrentWorkflow batch shardID domainID workflowID request).2.isSome = true) ∧
      (∀ expected, request.condition.bind (fun c => c.currentRunID) = some expected →
        createOrUpdateCurrentWorkflow batch shardID domainID workflowID request =
          (batch ++ [updateCurrentWorkflowQuery shardID domainID workflowID request.row expected], none) ∧
        ∃ p, updateCurrentWorkflowQuery shardID domainID workflowID request.row expected =
          p ++ ("IF current_run_id = " ++ expected ++ " "))) ∧
    (request.writeMode ≠ currentWorkflowWriteModeNoop →
      request.writeMode ≠ currentWorkflowWriteModeInsert →
      request.writeMode ≠ currentWorkflowWriteModeUpdate →
      (createOrUpdateCurrentWorkflow batch shardID domainID workflowID request).1 = batch ∧
      (createOrUpdateCurrentWorkflow batch shardID domainID workflowID request).2.isSome = true) ∧
    (∀ cond lwv, request.condition = some cond →
      createOrUpdateCurrentWorkflow batch shardID domainID workflowID
        { request with condition := some { cond with lastWriteVersion := lwv } } =
      createOrUpdateCurrentWorkflow batch shardID domainID workflowID request) := by
  refine ⟨?_, ?_, ?_, ?_, ?_⟩
  · intro h
    unfold createOrUpdateCurrentWorkflow
    rw [if_pos h]
  · intro h
    have hn : ¬ request.writeMode = currentWorkflowWriteModeNoop := by
      rw [h]; decide
    unfold createOrUpdateCurrentWorkflow
    rw [if_neg hn, if_pos h]
    exact ⟨rfl, insertCurrentWorkflowQueryHead shardID domainID workflowID request.row, rfl⟩
  · intro h
    have hn : ¬ request.writeMode = currentWorkflowWriteModeNoop := by
      rw [h]; decide
    have hi : ¬ request.writeMode = currentWorkflowWriteModeInsert := by
      rw [h]; decide
    constructor
    · intro hnone
      unfold createOrUpdateCurrentWorkflow
      rw [if_neg hn, if_neg hi, if_pos h, hnone]
      exact ⟨rfl, rfl⟩
    · intro expected hsome
      unfold createOrUpdateCurrentWorkflow
      rw [if_neg hn, if_neg hi, if_pos h, hsome]
      exact ⟨rfl, updateCurrentWorkflowQueryHead shardID domainID workflowID request.row, rfl⟩
  · intro h1 h2 h3
    unfold createOrUpdateCurrentWorkflow
    rw [if_neg h1, if_neg h2, if_neg h3]
    exact ⟨rfl, rfl⟩
  · intro cond lwv hc
    unfold createOrUpdateCurrentWorkflow
    simp [hc]

/-- C5 witness: the dispatch at the concrete test requests — `Noop`,
`Insert`, `Update` without a condition run id, an unknown mode, and the
`Update` request with a supplied last write version. -/
theorem createOrUpdateCurrentWorkflow_dispatch_witness :
    createOrUpdateCurrentWorkflow [] 1000 "domain1" "workflow1"
      { writeMode := currentWorkflowWriteModeNoop } = ([], none) ∧
    createOrUpdateCurrentWorkflow [] 1000 "domain1" "workflow1" insertCurrentWFReq =
      ([insertCurrentWorkflowQuery 1000 "domain1" "workflow1" insertCurrentWFReq.row], none) ∧
    (createOrUpdateCurrentWorkflow [] 1000 "domain1" "workflow1"
      { writeMode := currentWorkflowWriteModeUpdate, row := { runID := "runid1" } }).2.isSome = true ∧
    (createOrUpdateCurrentWorkflow [] 1000 "domain1" "workflow1"
      { writeMode := 255 }).2.isSome = true ∧
    createOrUpdateCurrentWorkflow [] 1000 "domain1" "workflow1" updateCurrentWFReqWithLWV =
      createOrUpdateCurrentWorkflow [] 1000 "domain1" "workflow1" updateCurrentWFReq := by
  have h1 := (createOrUpdateCurrentWorkflow_dispatch [] 1000 "domain1" "workflow1"
    { writeMode := currentWorkflowWriteModeNoop }).1 rfl
  have h2 := ((createOrUpdateCurrentWorkflow_dispatch [] 1000 "domain1" "workflow1"
    insertCurrentWFReq).2.1 rfl).1
  have h3 := (((createOrUpdateCurrentWorkflow_dispatch [] 1000 "domain1" "workflow1"
    { writeMode := currentWorkflowWriteModeUpdate, row := { runID := "runid1" } }).2.2.1 rfl).1 rfl).2
  have h4 := ((createOrUpdateCurrentWorkflow_dispatch [] 1000 "domain1" "workflow1"
    { writeMode := 255 }).2.2.2.1 (by decide) (by decide) (by decide)).2
  have h5 := (createOrUpdateCurrentWorkflow_dispatch [] 1000 "domain1" "workflow1"
    updateCurrentWFReq).2.2.2.2 { currentRunID := some "runid1" } (some 1) rfl
  exact ⟨h1, by simpa using h2, h3, h4, h5⟩

/-- C6 counterexample: the cross-cluster task of `TestCrossClusterTasks`
(target cluster unset) is emitted with the domain and run sentinels but an
empty `workflow_id` key slot, not the `workflow_id` sentinel the spec's
type-specific formula would give for row type 6. -/
theorem crossClusterTask_workflowIDSlot_not_sentinel :
    (createCrossClusterTasks [] 1000 "domain_xyz" "workflow_xyz" [testCrossClusterTask]).map
      (fun r => (r.domainIDSlot, r.workflowIDSlot, r.runIDSlot)) =
      [(rowTypeCrossClusterDomainID, "", rowTypeCrossClusterRunID)] ∧
    ("" : String) ≠ specCrossClusterWorkflowIDSentinel := by
  exact ⟨by decide, by decide⟩

/-- C6 (amended): transfer, timer and replication task rows carry the
type-specific sentinel UUIDs in all three of their `domain_id`,
`workflow_id` and `run_id` key slots; cross-cluster task rows carry the
sentinels in `domain_id` and `run_id` while their `workflow_id` key slot
carries the task's target cluster name. -/
theorem taskRows_key_slots (shardID : Int) (domainID workflowID : String)
    (transferTasks : List TransferTask) (timerTasks : List TimerTask)
    (replTasks : List ReplicationTask) (xClusterTasks : List CrossClusterTask) :
    ((createTransferTasks [] shardID domainID workflowID transferTasks).map
        (fun r => (r.domainIDSlot, r.workflowIDSlot, r.runIDSlot)) =
      transferTasks.map (fun _ =>
        (rowTypeTransferDomainID, rowTypeTransferWorkflowID, rowTypeTransferRunID))) ∧
    ((createTimerTasks [] shardID domainID workflowID timerTasks).map
        (fun r => (r.domainIDSlot, r.workflowIDSlot, r.runIDSlot)) =
      timerTasks.map (fun _ =>
        (rowTypeTimerDomainID, rowTypeTimerWorkflowID, rowTypeTimerRunID))) ∧
    ((createReplicationTasks [] shardID domainID workflowID replTasks).map
        (fun r => (r.domainIDSlot, r.workflowIDSlot, r.runIDSlot)) =
      replTasks.map (fun _ =>
        (rowTypeReplicationDomainID, rowTypeReplicationWorkflowID, rowTypeReplicationRunID))) ∧
    ((createCrossClusterTasks [] shardID domainID workflowID xClusterTasks).map
        (fun r => (r.domainIDSlot, r.workflowIDSlot, r.runIDSlot)) =
      xClusterTasks.map (fun t =>
        (rowTypeCrossClusterDomainID, t.targetCluster, rowTypeCrossClusterRunID))) := by
  refine ⟨?_, ?_, ?_, ?_⟩
  · simp only [createTransferTasks, List.nil_append, List.map_map]
    rfl
  · simp only [createTimerTasks, List.nil_append, List.map_map]
    rfl
  · simp only [createReplicationTasks, List.nil_append, List.map_map]
    rfl
  · simp only [createCrossClusterTasks, List.nil_append, List.map_map]
    rfl

/-- C7: the rows emitted by the timer encoder carry the task's scheduled
time in milliseconds since epoch as `visibility_ts`, while transfer,
replication and cross-cluster task rows and the execution row (inserted or
updated) carry the fixed sentinel 946684800000. -/
theorem taskRows_visibility_ts (batch : List ExecStmt) (shardID : Int)
    (domainID workflowID : String) (execution : WorkflowExecutionRequest)
    (transferTasks : List TransferTask) (timerTasks : List TimerTask)
    (replTasks : List ReplicationTask) (xClusterTasks : List CrossClusterTask) :
    ((createTimerTasks [] shardID domainID workflowID timerTasks).map
        (fun r => r.visibilityTs) =
      timerTasks.map (fun t => epochMillis t.visibilityTimestamp)) ∧
    ((createTransferTasks [] shardID domainID workflowID transferTasks).map
        (fun r => r.visibilityTs) =
      transferTasks.map (fun _ => 946684800000)) ∧
    ((createReplicationTasks [] shardID domainID workflowID replTasks).map
        (fun r => r.visibilityTs) =
      replTasks.map (fun _ => 946684800000)) ∧
    ((createCrossClusterTasks [] shardID domainID workflowID xClusterTasks).map
        (fun r => r.visibilityTs) =
      xClusterTasks.map (fun _ => 946684800000)) ∧
    (createWorkflowExecution batch shardID domainID workflowID execution =
      batch ++ [.insertExecution shardID domainID workflowID execution
        946684800000 rowTypeExecutionTaskID]) ∧
    (updateWorkflowExecution batch shardID domainID workflowID execution =
      batch ++ [.updateExecution shardID domainID workflowID execution
        946684800000 rowTypeExecutionTaskID]) := by
  refine ⟨?_, ?_, ?_, ?_, rfl, rfl⟩
  · simp only [createTimerTasks, List.nil_append, List.map_map]
    rfl
  · simp only [createTransferTasks, List.nil_append, List.map_map]
    rfl
  · simp only [createReplicationTasks, List.nil_append, List.map_map]
    rfl
  · simp only [createCrossClusterTasks, List.nil_append, List.map_map]
    rfl

/-- C9: the reflection helper panics (modelled `none`) on nil and on every
non-slice value, and for every slice or array returns its elements in
order, the empty slice included. -/
theorem mustConvertToSlice_spec :
    mustConvertToSlice .nilValue = none ∧
    (∀ s, mustConvertToSlice (.strValue s) = none) ∧
    (∀ i, mustConvertToSlice (.intValue i) = none) ∧
    (∀ elems, mustConvertToSlice (.sliceValue elems) = some elems) ∧
    (∀ elems, mustConvertToSlice (.arrayValue elems) = some elems) ∧
    mustConvertToSlice (.sliceValue []) = some [] :=
  ⟨rfl, fun _ => rfl, fun _ => rfl, fun _ => rfl, fun _ => rfl, rfl⟩

end Cadence
